import Mathlib

/-!
Verification of the record-validation framework and functional-richness
engine of the diagnostic_tool repository, as a shallow embedding.

Python floats are idealised as exact extended rationals (`EFloat`):
NaN, +inf, -inf and finite rationals, with IEEE comparison semantics
(NaN incomparable).  Python values appearing in records are strings,
ints or floats (`PyVal`); `isinstance` is modelled by `PyVal.isinst`.
Raised exceptions are modelled with `Except PyErr`; the exception class
(ValueError / TypeError / KeyError / scipy QhullError) is the
constructor.  `warnings.warn` emissions are modelled by an explicit
list of warning messages returned alongside the result, for the
functions whose contracts mention warnings.

Numeric rendering inside error messages is idealised (`Rat` printing
instead of Python float repr); no claim depends on digit formatting.
-/

unseal Rat.add Rat.mul Rat.inv Rat.sub

/-- Idealised Python float: NaN, infinities, or an exact rational. -/
inductive EFloat where
  | nan : EFloat
  | inf : EFloat
  | ninf : EFloat
  | fin : ℚ → EFloat
deriving DecidableEq, Repr

namespace EFloat

/-- IEEE `<=`: any comparison with NaN is false. -/
def le : EFloat → EFloat → Bool
  | nan, _ => false
  | _, nan => false
  | ninf, _ => true
  | _, ninf => false
  | _, inf => true
  | inf, _ => false
  | fin a, fin b => decide (a ≤ b)

/-- IEEE `<`: any comparison with NaN is false. -/
def lt : EFloat → EFloat → Bool
  | nan, _ => false
  | _, nan => false
  | ninf, ninf => false
  | ninf, _ => true
  | _, ninf => false
  | inf, _ => false
  | _, inf => true
  | fin a, fin b => decide (a < b)

/-- IEEE `==`: NaN is unequal to everything, including itself. -/
def beq : EFloat → EFloat → Bool
  | nan, _ => false
  | _, nan => false
  | inf, inf => true
  | ninf, ninf => true
  | fin a, fin b => decide (a = b)
  | _, _ => false

/-- IEEE addition, exact on finite values. -/
def add : EFloat → EFloat → EFloat
  | nan, _ => nan
  | _, nan => nan
  | inf, ninf => nan
  | ninf, inf => nan
  | inf, _ => inf
  | _, inf => inf
  | ninf, _ => ninf
  | _, ninf => ninf
  | fin a, fin b => fin (a + b)

/-- IEEE negation. -/
def neg : EFloat → EFloat
  | nan => nan
  | inf => ninf
  | ninf => inf
  | fin a => fin (-a)

/-- IEEE subtraction. -/
def sub (a b : EFloat) : EFloat := add a (neg b)

/-- Sign classification of a non-NaN value: 1, 0 or -1. -/
def sgn : EFloat → Int
  | nan => 0
  | inf => 1
  | ninf => -1
  | fin a => if a > 0 then 1 else if a < 0 then -1 else 0

/-- IEEE multiplication, exact on finite values (inf * 0 = NaN). -/
def mul : EFloat → EFloat → EFloat
  | nan, _ => nan
  | _, nan => nan
  | inf, x => if sgn x = 1 then inf else if sgn x = -1 then ninf else nan
  | ninf, x => if sgn x = 1 then ninf else if sgn x = -1 then inf else nan
  | fin a, inf => if a > 0 then inf else if a < 0 then ninf else nan
  | fin a, ninf => if a > 0 then ninf else if a < 0 then inf else nan
  | fin a, fin b => fin (a * b)

/-- NumPy-style division (no exception; used only where the divisor is a
positive record count, so the junk x/0 = NaN branch is unreachable). -/
def npDiv : EFloat → EFloat → EFloat
  | nan, _ => nan
  | _, nan => nan
  | inf, fin b => if b > 0 then inf else if b < 0 then ninf else nan
  | ninf, fin b => if b > 0 then ninf else if b < 0 then inf else nan
  | _, inf => fin 0
  | _, ninf => fin 0
  | fin a, fin b => if b = 0 then nan else fin (a / b)

/-- Sum of a list of values, as NumPy / Python `sum` would fold them. -/
def lsum (l : List EFloat) : EFloat := l.foldl add (fin 0)

/-- Rendering used in error-message interpolation (idealised digits). -/
def render : EFloat → String
  | nan => "nan"
  | inf => "inf"
  | ninf => "-inf"
  | fin a => toString a

end EFloat

/-- A Python value as it appears in an input record. -/
inductive PyVal where
  | str : String → PyVal
  | int : Int → PyVal
  | float : EFloat → PyVal
deriving DecidableEq, Repr

/-- A Python primitive type, as used in `isinstance` type schemas. -/
inductive PyType where
  | str : PyType
  | int : PyType
  | float : PyType
deriving DecidableEq, Repr

/-- `isinstance(v, t)` for a single type (Python int is not a float). -/
def PyVal.isinst : PyVal → PyType → Bool
  | .str _, .str => true
  | .int _, .int => true
  | .float _, .float => true
  | _, _ => false

/-- `type(v).__name__`. -/
def PyVal.typeName : PyVal → String
  | .str _ => "str"
  | .int _ => "int"
  | .float _ => "float"

/-- `str(v)` as interpolated into f-string messages (digits idealised). -/
def PyVal.render : PyVal → String
  | .str s => s
  | .int n => toString n
  | .float x => x.render

/-- Numeric view of a value: `none` for strings (comparison TypeError). -/
def PyVal.toNum : PyVal → Option EFloat
  | .str _ => none
  | .int n => some (.fin n)
  | .float x => some x

/-- A raised Python exception; the constructor is the exception class. -/
inductive PyErr where
  | valueError : String → PyErr
  | typeError : String → PyErr
  | keyError : String → PyErr
  | zeroDivisionError : String → PyErr
  | qhullError : String → PyErr
deriving DecidableEq, Repr

/-- The message carried by an exception. -/
def PyErr.msg : PyErr → String
  | .valueError m => m
  | .typeError m => m
  | .keyError m => m
  | .zeroDivisionError m => m
  | .qhullError m => m

/-- True exactly for the classes caught by `except (ValueError, TypeError)`. -/
def PyErr.catchable : PyErr → Bool
  | .valueError _ => true
  | .typeError _ => true
  | _ => false

deriving instance DecidableEq for Except

/-- A record: a Python dict from field name to value (keys unique). -/
def PyRecord := List (String × PyVal)

instance : DecidableEq PyRecord := by
  unfold PyRecord
  infer_instance

/-- `record[key]` lookup, `none` when the key is absent. -/
def PyRecord.lookup (r : PyRecord) (k : String) : Option PyVal :=
  match r with
  | [] => none
  | (k2, v) :: rest => if k2 = k then some v else PyRecord.lookup rest k

/-- `record[key]` with the KeyError the subscript raises when absent. -/
def PyRecord.getKey (r : PyRecord) (k : String) : Except PyErr PyVal :=
  match r.lookup k with
  | some v => .ok v
  | none => .error (.keyError k)

/-- Substring containment, used to state facts about error messages. -/
def msgHas (m needle : String) : Prop := needle.toList <:+: m.toList

instance (m needle : String) : Decidable (msgHas m needle) := by
  unfold msgHas
  infer_instance

/-!
Models of `src/utils/validation.py`.
-/

/-- The f-string message of `validate_range`. -/
def rangeMsg (name : String) (mn mx : EFloat) (v : PyVal) : String :=
  name ++ " must be between " ++ mn.render ++ " and " ++ mx.render ++
    ", got " ++ v.render

/-- `validate_range(value, min_val, max_val, name)`: raises ValueError
when `not min_val <= value <= max_val` (IEEE chained comparison, so NaN
always fails it), and TypeError when `value` is not comparable to a
float (Python raises inside the chained comparison itself). -/
def validate_range (value : PyVal) (min_val max_val : EFloat)
    (name : String) : Except PyErr Unit :=
  match value.toNum with
  | none =>
    .error (.typeError ("unsupported comparison between float and " ++
      value.typeName))
  | some v =>
    if EFloat.le min_val v && EFloat.le v max_val then .ok ()
    else .error (.valueError (rangeMsg name min_val max_val value))

/-- The f-string message of `validate_array_values`. -/
def arrayMsg (name : String) (mn mx : EFloat) (invalid : List EFloat) :
    String :=
  name ++ " contains values outside[" ++ mn.render ++ ", " ++ mx.render ++
    "]: " ++ toString (invalid.map EFloat.render)

/-- `validate_array_values(values, min_val, max_val, name)`: the source
condition is `not np.all(min_val <= values) and np.all(values <= max_val)`,
in which `not` binds only the first conjunct; it raises (listing every
value below min or above max) only when some value is below `min_val`
AND every value is at most `max_val`. -/
def validate_array_values (values : List EFloat) (min_val max_val : EFloat)
    (name : String) : Except PyErr Unit :=
  if (!values.all (fun v => EFloat.le min_val v)) &&
      values.all (fun v => EFloat.le v max_val) then
    .error (.valueError (arrayMsg name min_val max_val
      (values.filter (fun v => EFloat.lt v min_val || EFloat.lt max_val v))))
  else .ok ()

/-- The f-string message for a missing key in `validate_type_schema`. -/
def missingMsg (i : ℕ) (key : String) : String :=
  "Record " ++ toString i ++ " is missing input: " ++ key

/-- Python list-ish rendering of the expected type names (the source
interpolates `[t.__name__ for t in expected_type]`; quote characters of
the Python repr are omitted). -/
def typeListRender (tys : List PyType) : String :=
  toString (tys.map (fun t =>
    match t with
    | .str => "str"
    | .int => "int"
    | .float => "float"))

/-- The (two-part, concatenated with no separating space, exactly as in
the source) f-string message for a type mismatch. -/
def typeMismatchMsg (i : ℕ) (key : String) (v : PyVal)
    (tys : List PyType) : String :=
  "Record " ++ toString i ++ ", key " ++ key ++ " has type " ++
    v.typeName ++ "expected one of: " ++ typeListRender tys

/-- The inner loop of `validate_type_schema` over one record: for each
schema entry in order, ValueError if the key is absent, TypeError if the
value is an instance of none of the expected types. -/
def checkRecord (i : ℕ) (r : PyRecord)
    (schema : List (String × List PyType)) : Except PyErr Unit :=
  match schema with
  | [] => .ok ()
  | (key, tys) :: rest =>
    match r.lookup key with
    | none => .error (.valueError (missingMsg i key))
    | some v =>
      if tys.any v.isinst then checkRecord i r rest
      else .error (.typeError (typeMismatchMsg i key v tys))

/-- The outer `for i, record in enumerate(inputs)` loop of
`validate_type_schema`; `raise` aborts at the first violation. -/
def validateTypeSchemaFrom (i : ℕ) (inputs : List PyRecord)
    (schema : List (String × List PyType)) : Except PyErr Unit :=
  match inputs with
  | [] => .ok ()
  | r :: rest =>
    match checkRecord i r schema with
    | .error e => .error e
    | .ok _ => validateTypeSchemaFrom (i + 1) rest schema

/-- `validate_type_schema(inputs, type_schema)`. -/
def validate_type_schema (inputs : List PyRecord)
    (schema : List (String × List PyType)) : Except PyErr Unit :=
  validateTypeSchemaFrom 0 inputs schema

/-!
Models of the closed-form metric functions in
`src/src/diagnostic_tool/biodiversity_metrics.py`.
-/

/-- The `type_schema` dict literal of `calculate_biodiversity_units`
(each entry is the tuple `(float, float)`, kept verbatim). -/
def unitTypeSchema : List (String × List PyType) :=
  [("area", [.float, .float]),
   ("distinctiveness", [.float, .float]),
   ("condition", [.float, .float]),
   ("strategic_significance", [.float, .float]),
   ("connectivity", [.float, .float])]

/-- `record[k] == n` for a Python int literal `n` (numeric cross-type
equality; NaN unequal to everything; strings unequal to ints). -/
def pyEqInt (v : PyVal) (n : Int) : Bool :=
  match v with
  | .str _ => false
  | .int m => decide (m = n)
  | .float x => EFloat.beq x (.fin n)

/-- Python `a / b` on validated numeric values: true division, with
ZeroDivisionError on a zero divisor and TypeError on strings. -/
def pyDiv (a b : PyVal) : Except PyErr EFloat :=
  match a.toNum, b.toNum with
  | some x, some y =>
    match y with
    | .fin q =>
      if q = 0 then .error (.zeroDivisionError "division by zero")
      else .ok (EFloat.npDiv x (.fin q))
    | _ => .ok (EFloat.npDiv x y)
  | _, _ => .error (.typeError "unsupported operand types for /")

/-- The loop body of `calculate_biodiversity_units` for one record:
range-validate `area` then the four unit-interval keys, then return the
product area * distinctiveness * condition * strategic_significance *
connectivity. -/
def unitBody (r : PyRecord) : Except PyErr EFloat := do
  let area ← r.getKey "area"
  let _ ← validate_range area (.fin (1/100)) .inf "area"
  let d ← r.getKey "distinctiveness"
  let _ ← validate_range d (.fin 0) (.fin 1) "distinctiveness"
  let c ← r.getKey "condition"
  let _ ← validate_range c (.fin 0) (.fin 1) "condition"
  let ss ← r.getKey "strategic_significance"
  let _ ← validate_range ss (.fin 0) (.fin 1) "strategic_significance"
  let cn ← r.getKey "connectivity"
  let _ ← validate_range cn (.fin 0) (.fin 1) "connectivity"
  let am := (area.toNum).getD .nan
  let dm := (d.toNum).getD .nan
  let cm := (c.toNum).getD .nan
  let sm := (ss.toNum).getD .nan
  let nm := (cn.toNum).getD .nan
  pure (EFloat.mul (EFloat.mul (EFloat.mul (EFloat.mul am dm) cm) sm) nm)

/-- `calculate_biodiversity_units(unit_data)`: validates the type schema
over ALL records, then `return`s from inside the first iteration of the
per-record loop (the source `return` is inside `for record in unit_data`);
an empty list falls through the loop and returns None. -/
def calculate_biodiversity_units (unit_data : List PyRecord) :
    Except PyErr (Option EFloat) :=
  match validate_type_schema unit_data unitTypeSchema with
  | .error e => .error e
  | .ok _ =>
    match unit_data with
    | [] => .ok none
    | r :: _ =>
      match unitBody r with
      | .error e => .error e
      | .ok v => .ok (some v)

/-- The loop body of `calculate_species_richness` for one record. -/
def richnessBody (r : PyRecord) (strict : Bool) :
    Except PyErr (Option EFloat) := do
  let total ← r.getKey "total_species"
  let area ← r.getKey "area"
  let _ ← validate_range (← r.getKey "total_species") (.fin 0) .inf
    "total_species"
  let _ ← validate_range (← r.getKey "area") (.fin 0) .inf "area"
  if pyEqInt area 0 then
    if strict then
      .error (.valueError "Area must be greater than zero for strict mode.")
    else
      pure (some .nan)
  else do
    let q ← pyDiv total area
    pure (some q)

/-- `calculate_species_richness(specimen_richness_data, strict)`: no type
schema is validated; the source `return`s from inside the first iteration
of the per-record loop, and returns None for an empty list. -/
def calculate_species_richness (data : List PyRecord) (strict : Bool) :
    Except PyErr (Option EFloat) :=
  match data with
  | [] => .ok none
  | r :: _ => richnessBody r strict

/-- The body of the `try` block of `calculate_endemism_index` for one
record: range-validate `presence_or_absence` in [0, 1] and
`total_regions` in [1, inf]; the contribution is `1 / total_regions`
when `presence_or_absence == 1`, nothing otherwise. -/
def endemismTry (r : PyRecord) : Except PyErr (Option EFloat) := do
  let p ← r.getKey "presence_or_absence"
  let _ ← validate_range p (.fin 0) (.fin 1) "presence_or_absence"
  let t ← r.getKey "total_regions"
  let _ ← validate_range t (.fin 1) .inf "total_regions"
  if pyEqInt (← r.getKey "presence_or_absence") 1 then do
    let q ← pyDiv (.int 1) (← r.getKey "total_regions")
    pure (some q)
  else
    pure none

/-- The `for record in endemism_data` loop of `calculate_endemism_index`
with accumulator state: `except (ValueError, TypeError)` warns
("Skipping invalid record: ...") and continues; other exceptions
(KeyError, ZeroDivisionError) propagate. -/
def endemismLoop (records : List PyRecord) (acc : EFloat) (skipped : ℕ)
    (warns : List String) : List String × Except PyErr (EFloat × ℕ) :=
  match records with
  | [] => (warns, .ok (acc, skipped))
  | r :: rest =>
    match endemismTry r with
    | .ok (some q) => endemismLoop rest (EFloat.add acc q) skipped warns
    | .ok none => endemismLoop rest acc skipped warns
    | .error e =>
      if e.catchable then
        endemismLoop rest acc (skipped + 1)
          (warns ++ ["Skipping invalid record: " ++ e.msg])
      else
        (warns, .error e)

/-- `calculate_endemism_index(endemism_data)`: returns the weighted
endemism sum together with the skipped-record count, plus the list of
warning messages emitted along the way. -/
def calculate_endemism_index (endemism_data : List PyRecord) :
    List String × Except PyErr (EFloat × ℕ) :=
  endemismLoop endemism_data (.fin 0) 0 []

/-!
Models of `prepare_trait_matrix` and `calculate_functional_richness`.

A trait-matrix entry is represented exactly as a pair `(dev, s)`
denoting the real number `dev / sqrt s`: the continuous block produced
by `StandardScaler` holds `(x - column mean, column variance)` (with the
scikit-learn replacement of a zero variance by scale 1), and the one-hot
block holds `(0, 1)` / `(1, 1)`.  This keeps the builder fully
computable while denoting the same real matrix the source hands to
`scipy.spatial.ConvexHull`.
-/

/-- A trait-matrix entry `(dev, s)`, denoting `dev / sqrt s`. -/
def Entry := EFloat × EFloat

instance : DecidableEq Entry := by
  unfold Entry
  infer_instance

/-- The trait field names `trait_1 .. trait_N`. -/
def traitFields (trait_count : ℕ) : List String :=
  (List.range trait_count).map (fun i => "trait_" ++ toString (i + 1))

/-- The type schema built by `build_required_keys` with the defaults
used by `prepare_trait_matrix`: `species_id` accepts str or float,
`abundance` accepts float only, every trait accepts str or float.
No range is ever enforced on any of these fields. -/
def traitSchema (trait_count : ℕ) : List (String × List PyType) :=
  ("species_id", [.str, .float]) :: ("abundance", [.float]) ::
    (traitFields trait_count).map (fun t => (t, [PyType.str, PyType.float]))

/-- Is this value a Python str? -/
def PyVal.isStr : PyVal → Bool
  | .str _ => true
  | _ => false

/-- The column of values of one trait field across the batch
(`trait_df[key]`); the default is unreachable once the schema holds. -/
def colVals (d : List PyRecord) (t : String) : List PyVal :=
  d.map (fun r => (r.lookup t).getD (.str ""))

/-- The source classifies a column as categorical iff its dtype is
object or any value in it is a str; over validated records (values are
str or float) this is: some value is a str. -/
def colIsCat (d : List PyRecord) (t : String) : Bool :=
  (colVals d t).any PyVal.isStr

/-- Numeric reading of a continuous-column value (strs unreachable). -/
def toF : PyVal → EFloat
  | .str _ => .fin 0
  | .int n => .fin n
  | .float x => x

/-- NumPy column mean. -/
def colMean (d : List PyRecord) (t : String) : EFloat :=
  EFloat.npDiv (EFloat.lsum ((colVals d t).map toF)) (.fin (d.length))

/-- NumPy population variance of a column (ddof = 0, as StandardScaler
uses). -/
def colVar (d : List PyRecord) (t : String) : EFloat :=
  EFloat.npDiv
    (EFloat.lsum ((colVals d t).map (fun v =>
      let dev := EFloat.sub (toF v) (colMean d t)
      EFloat.mul dev dev)))
    (.fin (d.length))

/-- StandardScaler squared scale: the column variance, with a zero
variance replaced by 1 (scikit-learn `scale_` zero handling). -/
def colScaleSq (d : List PyRecord) (t : String) : EFloat :=
  if EFloat.beq (colVar d t) (.fin 0) then .fin 1 else colVar d t

/-- The one-hot segment of one row for one categorical column: one
binary indicator per distinct value observed in the column. -/
def oneHotRow (d : List PyRecord) (t : String) (r : PyRecord) :
    List Entry :=
  ((colVals d t).dedup).map (fun u =>
    if (r.lookup t).getD (.str "") = u then ((.fin 1 : EFloat), (.fin 1 : EFloat))
    else ((.fin 0 : EFloat), (.fin 1 : EFloat)))

/-- The standardized entry of one row for one continuous column. -/
def scaledEntry (d : List PyRecord) (t : String) (r : PyRecord) : Entry :=
  (EFloat.sub (toF ((r.lookup t).getD (.str ""))) (colMean d t),
   colScaleSq d t)

/-- One output row: the categorical block (all one-hot segments, in
trait order) followed by the continuous block, as `np.hstack` lays the
encoded and scaled blocks out. -/
def buildRow (d : List PyRecord) (trait_count : ℕ) (r : PyRecord) :
    List Entry :=
  ((((traitFields trait_count).filter (colIsCat d)).map
      (fun t => oneHotRow d t r)).flatten) ++
    (((traitFields trait_count).filter (fun t => !colIsCat d t)).map
      (fun t => scaledEntry d t r))

/-- Is this value an infinite float? -/
def PyVal.isInfVal : PyVal → Bool
  | .float .inf => true
  | .float .ninf => true
  | _ => false

/-- A column holding both a str and a non-str value.  Such a column is
classified categorical, but `OneHotEncoder.fit_transform` then raises a
TypeError: `np.unique` sorts the object column and a str/float
comparison is unsupported. -/
def colMixed (d : List PyRecord) (t : String) : Bool :=
  (colVals d t).any PyVal.isStr && (colVals d t).any (fun v => !v.isStr)

/-- Some categorical column mixes strs with non-strs (encoder
TypeError). -/
def anyCatMixed (d : List PyRecord) (trait_count : ℕ) : Bool :=
  (traitFields trait_count).any (colMixed d)

/-- Some continuous column holds an infinite value (StandardScaler
rejects infinite input with a ValueError; NaN is allowed through). -/
def contHasInf (d : List PyRecord) (trait_count : ℕ) : Bool :=
  ((traitFields trait_count).filter (fun t => !colIsCat d t)).any
    (fun t => (colVals d t).any PyVal.isInfVal)

/-- Is some trait column categorical at all? -/
def hasCatCol (d : List PyRecord) (trait_count : ℕ) : Bool :=
  (traitFields trait_count).any (colIsCat d)

/-- The TypeError message from sorting a mixed object column. -/
def encoderSortMsg : String :=
  "unsupported comparison between instances of str and float"

/-- The ValueError message from StandardScaler on infinite input. -/
def scalerMsg : String :=
  "Input contains infinity or a value too large"

/-- The ValueError message from `np.hstack` on a scipy sparse operand
(NumPy wraps the sparse matrix in a zero-dimensional object array). -/
def hstackMsg : String :=
  "zero-dimensional arrays cannot be concatenated"

/-- `prepare_trait_matrix(trait_data, trait_count)`: validate the type
schema over all records, then run the build pipeline with its error
paths in source order:
on an empty batch with at least one trait field, `df[trait_fields]`
raises a pandas KeyError (`pd.DataFrame([])` has no columns);
`oh.fit_transform` raises a TypeError if any categorical column mixes
strs with floats (object-column sort);
`std_scaler.fit_transform` raises a ValueError if any continuous
column holds an infinite value;
`np.hstack([encoded, scaled])` raises a ValueError whenever the
categorical block is non-empty, because `OneHotEncoder()` returns a
scipy SPARSE matrix and NumPy cannot concatenate it with the dense
scaled block.  Only an all-continuous batch with no infinite values
actually yields a matrix. -/
def prepare_trait_matrix (trait_data : List PyRecord) (trait_count : ℕ) :
    Except PyErr (List (List Entry)) :=
  match validate_type_schema trait_data (traitSchema trait_count) with
  | .error e => .error e
  | .ok _ =>
    match trait_data, traitFields trait_count with
    | [], _ :: _ =>
      .error (.keyError "None of the trait columns are in the columns")
    | _, _ =>
      if anyCatMixed trait_data trait_count then
        .error (.typeError encoderSortMsg)
      else if contHasInf trait_data trait_count then
        .error (.valueError scalerMsg)
      else if hasCatCol trait_data trait_count then
        .error (.valueError hstackMsg)
      else .ok (trait_data.map (buildRow trait_data trait_count))

/-- `shape[1]` of the stacked matrix. -/
def matCols (m : List (List Entry)) : ℕ := (m.headD []).length

/-- The real number an entry denotes: `dev / sqrt s` for finite
components (junk 0 otherwise; the hull model rejects non-finite entries
before any denotation matters, as qhull rejects non-finite input). -/
noncomputable def denote (e : Entry) : ℝ :=
  match e with
  | (.fin a, .fin s) => (a : ℝ) / Real.sqrt (s : ℝ)
  | _ => 0

/-- Are both components of the entry finite? -/
def entryFinite : Entry → Bool
  | (.fin _, .fin _) => true
  | _ => false

/-- Does the whole matrix consist of finite entries? -/
def matFinite (m : List (List Entry)) : Bool :=
  m.all (fun row => row.all entryFinite)

/-- Dot product of a real coefficient row with a denoted matrix row. -/
noncomputable def rowDot (a : List ℝ) (row : List Entry) : ℝ :=
  (List.zipWith (fun c e => c * denote e) a row).sum

/-- The matrix rows, as points, do not affinely span the full encoded
space: some hyperplane (nonzero normal `a`, offset `b`) contains every
row.  This is exactly the condition under which qhull cannot build an
initial full-dimensional simplex and raises QhullError. -/
def isDegenerate (m : List (List Entry)) : Prop :=
  ∃ (a : List ℝ) (b : ℝ), a.length = matCols m ∧ (∃ x ∈ a, x ≠ 0) ∧
    ∀ row ∈ m, rowDot a row = b

/-- The message of the QhullError raised on degenerate input. -/
def qhullMsg : String :=
  "QH6154 qhull precision error: initial simplex is flat"

/-- The point of the encoded space a matrix row denotes. -/
noncomputable def rowPoint (w : ℕ) (row : List Entry) : Fin w → ℝ :=
  fun i => denote (row.getD i ((.fin 0 : EFloat), (.fin 1 : EFloat)))

/-- `hull.volume`: the Lebesgue volume of the convex hull of the row
points in the encoded space. -/
noncomputable def hullVolumeVal (m : List (List Entry)) : ℝ :=
  (MeasureTheory.volume (convexHull ℝ
    {p : Fin (matCols m) → ℝ | ∃ row ∈ m, p = rowPoint (matCols m) row})).toReal

open Classical in
/-- `ConvexHull(trait_matrix)` followed by `.volume`: modelled from the
documented qhull behaviour, it raises QhullError when the input is not
full-dimensional (or contains non-finite coordinates) and otherwise
yields the hull volume. -/
noncomputable def convexHullVol (m : List (List Entry)) :
    Except PyErr ℝ :=
  if matFinite m = true ∧ ¬ isDegenerate m then .ok (hullVolumeVal m)
  else .error (.qhullError qhullMsg)

/-- `calculate_functional_richness(trait_data, trait_count)`: build the
trait matrix; if rows <= columns return 0.0, else construct the hull
and return its volume.  The hull construction is NOT wrapped in any
try/except in the source, so a QhullError propagates to the caller.
No `warnings.warn` call occurs anywhere on this path, so the emitted
warning list is always empty. -/
noncomputable def calculate_functional_richness (trait_data : List PyRecord)
    (trait_count : ℕ) : List String × Except PyErr ℝ :=
  match prepare_trait_matrix trait_data trait_count with
  | .error e => ([], .error e)
  | .ok m =>
    if m.length ≤ matCols m then ([], .ok 0)
    else
      match convexHullVol m with
      | .error e => ([], .error e)
      | .ok v => ([], .ok v)

/-!
Spec-side column-count quantities for the trait matrix (same
classification functions the builder itself uses).
-/

/-- Sum of the distinct-level counts over all categorical trait columns. -/
def catLevelTotal (d : List PyRecord) (trait_count : ℕ) : ℕ :=
  ((((traitFields trait_count).filter (colIsCat d)).map
    (fun t => ((colVals d t).dedup).length))).sum

/-- Number of continuous trait columns. -/
def contColTotal (d : List PyRecord) (trait_count : ℕ) : ℕ :=
  ((traitFields trait_count).filter (fun t => !colIsCat d t)).length

/-!
Concrete inputs used by witnesses and counterexamples.
-/

/-- A valid trait record with the six traits all continuous and all
equal to 1.0 (so each trait column is constant across any batch built
from these records). -/
def mkTraitRec (sid : String) (ab : ℚ) : PyRecord :=
  [("species_id", .str sid), ("abundance", .float (.fin ab)),
   ("trait_1", .float (.fin 1)), ("trait_2", .float (.fin 1)),
   ("trait_3", .float (.fin 1)), ("trait_4", .float (.fin 1)),
   ("trait_5", .float (.fin 1)), ("trait_6", .float (.fin 1))]

/-- Three valid records over six all-continuous traits. -/
def d3 : List PyRecord :=
  [mkTraitRec "A" 10, mkTraitRec "B" 20, mkTraitRec "C" 15]

/-- The trait matrix of `d3`: 3 rows, 6 standardized columns (constant
columns: deviation 0, scale 1). -/
def M3 : List (List Entry) :=
  List.replicate 3 (List.replicate 6 ((.fin 0 : EFloat), (.fin 1 : EFloat)))

/-- Three otherwise-valid records, the second with negative abundance. -/
def dNeg : List PyRecord :=
  [mkTraitRec "A" 10, mkTraitRec "B" (-20), mkTraitRec "C" 15]

/-- Seven valid records over six all-continuous traits, every record
with identical trait values, so the 7 x 6 trait matrix is geometrically
degenerate (all rows denote the same point). -/
def d7 : List PyRecord :=
  [mkTraitRec "A" 1, mkTraitRec "B" 1, mkTraitRec "C" 1, mkTraitRec "D" 1,
   mkTraitRec "E" 1, mkTraitRec "F" 1, mkTraitRec "G" 1]

/-- The trait matrix of `d7`: 7 rows, 6 columns, all entries zero. -/
def M7 : List (List Entry) :=
  List.replicate 7 (List.replicate 6 ((.fin 0 : EFloat), (.fin 1 : EFloat)))

/-- Three valid records with categorical traits 1, 3, 5 (pure string
columns) and continuous traits 2, 4, 6 — the input of the repo's
`test_functional_richness_basic`.  The conceptual encoded width is
3 + 3 + 3 one-hot columns plus 3 continuous columns = 12. -/
def dCat : List PyRecord :=
  [[("species_id", .str "A"), ("abundance", .float (.fin 10)),
    ("trait_1", .str "fast"), ("trait_2", .float (.fin (1/2))),
    ("trait_3", .str "small"), ("trait_4", .float (.fin 1)),
    ("trait_5", .str "red"), ("trait_6", .float (.fin 2))],
   [("species_id", .str "B"), ("abundance", .float (.fin 20)),
    ("trait_1", .str "slow"), ("trait_2", .float (.fin (7/10))),
    ("trait_3", .str "large"), ("trait_4", .float (.fin (3/2))),
    ("trait_5", .str "blue"), ("trait_6", .float (.fin (5/2)))],
   [("species_id", .str "C"), ("abundance", .float (.fin 15)),
    ("trait_1", .str "medium"), ("trait_2", .float (.fin (3/5))),
    ("trait_3", .str "medium"), ("trait_4", .float (.fin (6/5))),
    ("trait_5", .str "green"), ("trait_6", .float (.fin (11/5)))]]

/-- A fully valid biodiversity-unit record. -/
def goodUnit : PyRecord :=
  [("area", .float (.fin 10)), ("distinctiveness", .float (.fin (4/5))),
   ("condition", .float (.fin (9/10))),
   ("strategic_significance", .float (.fin 1)),
   ("connectivity", .float (.fin (7/10)))]

/-- A biodiversity-unit record whose `area` has the wrong type. -/
def badUnit : PyRecord :=
  [("area", .str "big"), ("distinctiveness", .float (.fin (4/5))),
   ("condition", .float (.fin (9/10))),
   ("strategic_significance", .float (.fin 1)),
   ("connectivity", .float (.fin (7/10)))]

/-- An endemism record for a present species over 10 regions. -/
def endemismPresent : PyRecord :=
  [("presence_or_absence", .int 1), ("total_regions", .int 10)]

/-- An endemism record for an absent species over 10 regions. -/
def endemismAbsent : PyRecord :=
  [("presence_or_absence", .int 0), ("total_regions", .int 10)]

/-!
Helper lemmas (shared; none of these is a claim theorem).
-/

theorem EFloat.le_nan_right (a : EFloat) : EFloat.le a .nan = false := by
  cases a <;> rfl

theorem EFloat.le_inf_right (a : EFloat) (h : a ≠ .nan) :
    EFloat.le a .inf = true := by
  cases a <;> simp_all [EFloat.le]

/-- If the builder succeeds and the matrix has at most as many rows as
columns, the engine returns 0.0 with no warnings. -/
theorem calcFR_shape_zero (d : List PyRecord) (tc : ℕ)
    (m : List (List Entry)) (h : prepare_trait_matrix d tc = .ok m)
    (hle : m.length ≤ matCols m) :
    calculate_functional_richness d tc = ([], .ok 0) := by
  unfold calculate_functional_richness
  rw [h]
  simp [hle]

/-- If the builder raises, the engine propagates that exception (there
is no try/except around the builder call either). -/
theorem calcFR_prepare_error (d : List PyRecord) (tc : ℕ) (e : PyErr)
    (h : prepare_trait_matrix d tc = .error e) :
    calculate_functional_richness d tc = ([], .error e) := by
  unfold calculate_functional_richness
  rw [h]

/-- If the builder succeeds, the matrix is tall (rows > columns) but
degenerate or non-finite, the engine propagates the QhullError. -/
theorem calcFR_qhull_error (d : List PyRecord) (tc : ℕ)
    (m : List (List Entry)) (h : prepare_trait_matrix d tc = .ok m)
    (hgt : matCols m < m.length)
    (hbad : matFinite m = false ∨ isDegenerate m) :
    calculate_functional_richness d tc =
      ([], .error (.qhullError qhullMsg)) := by
  unfold calculate_functional_richness
  rw [h]
  dsimp only
  rw [if_neg (by omega)]
  have hc : ¬ (matFinite m = true ∧ ¬ isDegenerate m) := by
    rcases hbad with hb | hb
    · intro hcon
      rw [hb] at hcon
      exact Bool.false_ne_true hcon.1
    · intro hcon
      exact hcon.2 hb
  unfold convexHullVol
  rw [if_neg hc]

/-- The all-zero entry denotes the real number 0. -/
theorem denote_zeroEntry :
    denote ((.fin 0 : EFloat), (.fin 1 : EFloat)) = 0 := by
  simp [denote]

/-- The 7 x 6 all-zero matrix is degenerate: the hyperplane with normal
(1,0,0,0,0,0) and offset 0 contains every row. -/
theorem M7_degenerate : isDegenerate M7 := by
  refine ⟨[1, 0, 0, 0, 0, 0], 0, by simp [M7, matCols], ⟨1, by simp⟩, ?_⟩
  intro row hrow
  have hr : row = List.replicate 6 ((.fin 0 : EFloat), (.fin 1 : EFloat)) := by
    simpa [M7] using (List.eq_of_mem_replicate hrow)
  subst hr
  simp [rowDot, List.replicate, denote_zeroEntry]

/-- A needle placed between two chunks is a substring. -/
theorem msgHas_middle (a n b : String) : msgHas (a ++ n ++ b) n := by
  exact ⟨a.toList, b.toList, rfl⟩

/-- Every missing-field message contains " is missing input: ". -/
theorem missingMsg_has (i : ℕ) (key : String) :
    msgHas (missingMsg i key) " is missing input: " := by
  exact msgHas_middle ("Record " ++ toString i) " is missing input: " key

/-- Every range-violation message contains " must be between ". -/
theorem rangeMsg_has (name : String) (mn mx : EFloat) (v : PyVal) :
    msgHas (rangeMsg name mn mx v) " must be between " := by
  refine ⟨name.toList, (mn.render ++ " and " ++ mx.render ++ ", got " ++
    v.render).toList, ?_⟩
  simp only [rangeMsg]
  change (name ++ " must be between " ++ (mn.render ++ " and " ++
    mx.render ++ ", got " ++ v.render)).toList = _
  congr 1
  simp [String.append_assoc]

/-- Every type-mismatch message contains " has type ". -/
theorem typeMismatchMsg_has (i : ℕ) (key : String) (v : PyVal)
    (tys : List PyType) :
    msgHas (typeMismatchMsg i key v tys) " has type " := by
  refine ⟨("Record " ++ toString i ++ ", key " ++ key).toList,
    (v.typeName ++ "expected one of: " ++ typeListRender tys).toList, ?_⟩
  simp only [typeMismatchMsg]
  change (("Record " ++ toString i ++ ", key " ++ key) ++ " has type " ++
    (v.typeName ++ "expected one of: " ++ typeListRender tys)).toList = _
  congr 1
  simp [String.append_assoc]

/-- Any error of `checkRecord i r schema` is a ValueError carrying the
missing-field message for index `i` and some schema key, or a TypeError
carrying the type-mismatch message for index `i`. -/
theorem checkRecord_error_shape (i : ℕ) (r : PyRecord)
    (schema : List (String × List PyType)) (e : PyErr)
    (h : checkRecord i r schema = .error e) :
    (∃ key, e = .valueError (missingMsg i key)) ∨
    (∃ key v tys, r.lookup key = some v ∧
      e = .typeError (typeMismatchMsg i key v tys)) := by
  induction schema with
  | nil => simp [checkRecord] at h
  | cons kv rest ih =>
    obtain ⟨key, tys⟩ := kv
    unfold checkRecord at h
    cases hl : r.lookup key with
    | none =>
      rw [hl] at h
      dsimp only at h
      injection h with h2
      left
      exact ⟨key, h2.symm⟩
    | some v =>
      rw [hl] at h
      dsimp only at h
      by_cases ha : (tys.any v.isinst) = true
      · rw [if_pos ha] at h
        exact ih h
      · rw [if_neg ha] at h
        injection h with h2
        right
        exact ⟨key, v, tys, hl, h2.symm⟩

/-- Any error of `validate_range` is a TypeError (non-numeric value) or
the ValueError carrying the range message. -/
theorem validate_range_error_shape (v : PyVal) (mn mx : EFloat)
    (name : String) (e : PyErr)
    (h : validate_range v mn mx name = .error e) :
    (∃ m, e = .typeError m) ∨ e = .valueError (rangeMsg name mn mx v) := by
  unfold validate_range at h
  cases hv : v.toNum with
  | none =>
    rw [hv] at h
    dsimp only at h
    injection h with h2
    left
    exact ⟨_, h2.symm⟩
  | some x =>
    rw [hv] at h
    dsimp only at h
    by_cases hc : (EFloat.le mn x && EFloat.le x mx) = true
    · rw [if_pos hc] at h
      simp at h
    · rw [if_neg hc] at h
      injection h with h2
      right
      exact h2.symm

/-- The outer loop of `validate_type_schema` (from any start index)
errors exactly with the verdict of the first violating record; all
earlier records pass. -/
theorem validateTypeSchemaFrom_error_first (inputs : List PyRecord)
    (k : ℕ) (schema : List (String × List PyType)) (e : PyErr)
    (h : validateTypeSchemaFrom k inputs schema = .error e) :
    ∃ i r, inputs.get? i = some r ∧ checkRecord (k + i) r schema = .error e ∧
      ∀ j r2, j < i → inputs.get? j = some r2 →
        checkRecord (k + j) r2 schema = .ok () := by
  induction inputs generalizing k with
  | nil => simp [validateTypeSchemaFrom] at h
  | cons r rest ih =>
    unfold validateTypeSchemaFrom at h
    cases hc : checkRecord k r schema with
    | error e2 =>
      rw [hc] at h
      dsimp only at h
      injection h with h2
      subst h2
      refine ⟨0, r, rfl, by simpa using hc, ?_⟩
      intro j r2 hj
      omega
    | ok u =>
      rw [hc] at h
      dsimp only at h
      obtain ⟨i, r2, hget, hcheck, hprev⟩ := ih (k + 1) h
      refine ⟨i + 1, r2, by simpa using hget, ?_, ?_⟩
      · have heq : k + (i + 1) = k + 1 + i := by omega
        rw [heq]
        exact hcheck
      · intro j r3 hj hget3
        cases j with
        | zero =>
          have h3 : r = r3 := by simpa using hget3
          subst h3
          simpa using hc
        | succ j2 =>
          have heq : k + (j2 + 1) = k + 1 + j2 := by omega
          rw [heq]
          exact hprev j2 r3 (by omega) (by simpa using hget3)

/-- A successful build yields exactly the per-record row map. -/
theorem prepare_ok_eq (d : List PyRecord) (tc : ℕ) (m : List (List Entry))
    (h : prepare_trait_matrix d tc = .ok m) :
    m = d.map (buildRow d tc) := by
  unfold prepare_trait_matrix at h
  split at h
  · exact absurd h (by simp)
  · split at h
    · exact absurd h (by simp)
    · split_ifs at h
      all_goals injection h with h2
      exact h2.symm

/-- A successful build implies there is no categorical trait column at
all (with one, `np.hstack` would have raised on the sparse encoder
output). -/
theorem prepare_ok_no_cat (d : List PyRecord) (tc : ℕ)
    (m : List (List Entry)) (h : prepare_trait_matrix d tc = .ok m) :
    hasCatCol d tc = false := by
  unfold prepare_trait_matrix at h
  split at h
  · exact absurd h (by simp)
  · split at h
    · exact absurd h (by simp)
    · split_ifs at h with h1 h2 h3
      simpa using h3

/-- With no categorical column, the categorical level total is 0. -/
theorem catLevelTotal_eq_zero (d : List PyRecord) (tc : ℕ)
    (hnc : hasCatCol d tc = false) :
    catLevelTotal d tc = 0 := by
  have hfil : (traitFields tc).filter (colIsCat d) = [] := by
    rw [List.filter_eq_nil_iff]
    intro t ht
    have := List.any_eq_false.mp (by simpa [hasCatCol] using hnc) t ht
    simpa using this
  simp [catLevelTotal, hfil]

/-- Every built row has the categorical width plus the continuous
width. -/
theorem buildRow_length (d : List PyRecord) (tc : ℕ) (r : PyRecord) :
    (buildRow d tc r).length = catLevelTotal d tc + contColTotal d tc := by
  simp only [buildRow, List.length_append, List.length_flatten,
    List.map_map, List.length_map, catLevelTotal, contColTotal]
  congr 1
  congr 1
  apply List.map_congr_left
  intro t ht
  simp [oneHotRow]

/-- Passing the outer schema loop on a cons means the head record
passes and the tail loop passes. -/
theorem validateTypeSchemaFrom_cons_ok (k : ℕ) (r : PyRecord)
    (rest : List PyRecord) (schema : List (String × List PyType))
    (h : validateTypeSchemaFrom k (r :: rest) schema = .ok ()) :
    checkRecord k r schema = .ok () ∧
      validateTypeSchemaFrom (k + 1) rest schema = .ok () := by
  unfold validateTypeSchemaFrom at h
  cases hc : checkRecord k r schema with
  | error e =>
    rw [hc] at h
    dsimp only at h
    exact absurd h (by simp)
  | ok u =>
    rw [hc] at h
    dsimp only at h
    cases u
    exact ⟨rfl, h⟩

/-- Exception class name, as a Python `except` clause distinguishes. -/
def PyErr.className : PyErr → String
  | .valueError _ => "ValueError"
  | .typeError _ => "TypeError"
  | .keyError _ => "KeyError"
  | .zeroDivisionError _ => "ZeroDivisionError"
  | .qhullError _ => "QhullError"

/-!
Claim theorems.
-/

/-- Counterexample to claim C1: the valid batch `dCat` (the repo's own
`test_functional_richness_basic` input: 3 records, categorical traits
1/3/5, continuous traits 2/4/6) has 3 rows against 12 encoded columns,
yet `calculate_functional_richness` raises a ValueError instead of
returning 0.0: `OneHotEncoder()` returns a scipy sparse matrix and
`np.hstack([sparse, dense])` fails inside the builder, before the
rows-vs-columns check is ever reached. -/
theorem C1_counterexample :
    dCat.length ≤ catLevelTotal dCat 6 + contColTotal dCat 6 ∧
    calculate_functional_richness dCat 6 =
      ([], .error (.valueError hstackMsg)) :=
  ⟨by decide, calcFR_prepare_error dCat 6 (.valueError hstackMsg)
    (by decide)⟩

/-- Claim C1 as amended: for every trait-record batch that the builder
actually turns into a matrix (an all-continuous batch with no infinite
values — any batch with a categorical trait column raises a ValueError
inside `np.hstack` instead), if the matrix has number of rows at most
the number of columns then `calculate_functional_richness` returns
exactly 0.0 (and emits no warnings) rather than raising any error. -/
theorem C1_rows_le_cols_returns_zero (d : List PyRecord) (tc : ℕ)
    (m : List (List Entry)) (h : prepare_trait_matrix d tc = .ok m)
    (hle : m.length ≤ matCols m) :
    calculate_functional_richness d tc = ([], .ok 0) :=
  calcFR_shape_zero d tc m h hle

/-- Witness for C1: the concrete 3-record, 6-continuous-trait batch
`d3` builds the 3 x 6 matrix `M3` and yields exactly 0.0. -/
theorem C1_witness : calculate_functional_richness d3 6 = ([], .ok 0) :=
  C1_rows_le_cols_returns_zero d3 6 M3 (by decide) (by decide)

/-- Claim C2 (refuted by the code, which contradicts its own test
`test_functional_richness_mixed_validity`): on a batch of
otherwise-valid trait records in which one record's abundance is
negative (-20.0), the source emits NO warning whatsoever — the
warning list is empty, so in particular no message contains "negative
abundance" — while returning a result normally (abundance is only
type-checked, never range-checked). -/
theorem C2_no_negative_abundance_warning :
    (∃ r ∈ dNeg, r.lookup "abundance" = some (.float (.fin (-20)))) ∧
      calculate_functional_richness dNeg 6 = ([], .ok 0) :=
  ⟨⟨mkTraitRec "B" (-20), by decide, by decide⟩,
    calcFR_shape_zero dNeg 6 M3 (by decide) (by decide)⟩

/-- Counterexample to claim C3: the batch `d7` produces a 7 x 6 trait
matrix (more rows than columns) whose rows are geometrically degenerate
(all rows denote the same point), and `calculate_functional_richness`
does NOT return 0.0 — the hull-construction QhullError escapes to the
caller uncaught. -/
theorem C3_counterexample :
    calculate_functional_richness d7 6 =
      ([], .error (.qhullError qhullMsg)) :=
  calcFR_qhull_error d7 6 M7 (by decide) (by decide) (Or.inr M7_degenerate)

/-- Claim C3 as amended: when the builder actually yields a trait
matrix (an all-continuous batch with no infinite values — a categorical
batch raises a ValueError inside the builder and never reaches
`ConvexHull` at all) and that matrix has more rows than columns but its
rows are geometrically degenerate (or non-finite), the hull
construction fails and the QhullError PROPAGATES to the caller — it is
not caught and not mapped to 0.0; only the rows <= columns pre-check
yields the 0.0 outcome. -/
theorem C3_hull_failure_propagates (d : List PyRecord) (tc : ℕ)
    (m : List (List Entry)) (h : prepare_trait_matrix d tc = .ok m)
    (hgt : matCols m < m.length)
    (hbad : matFinite m = false ∨ isDegenerate m) :
    calculate_functional_richness d tc =
      ([], .error (.qhullError qhullMsg)) :=
  calcFR_qhull_error d tc m h hgt hbad

/-- Witness for the amended C3 at the concrete degenerate batch `d7`. -/
theorem C3_witness :
    calculate_functional_richness d7 6 =
      ([], Except.error (PyErr.qhullError qhullMsg)) :=
  C3_hull_failure_propagates d7 6 M7 (by decide) (by decide)
    (Or.inr M7_degenerate)

/-- Claim C4 (refuted by the code, which contradicts its own
docstring): the sequence [5.0] has a value outside [0, 1] (above the
maximum, with no value below the minimum), yet `validate_array_values`
returns silently — in the source condition
`not np.all(min_val <= values) and np.all(values <= max_val)` the `not`
binds only the lower-bound conjunct. -/
theorem C4_upper_violation_passes_silently :
    validate_array_values [.fin 5] (.fin 0) (.fin 1) "arr" = .ok () ∧
      EFloat.le (.fin 5) (.fin 1) = false := by
  decide

/-- Counterexample to claim C5: the non-finite value inf is ACCEPTED
(not rejected) by `validate_range` when the upper bound is itself inf,
as in every `(0, float("inf"))` bound used by the metric functions. -/
theorem C5_counterexample :
    validate_range (.float .inf) (.fin 0) .inf "area" = .ok () := by
  decide

/-- Claim C5 as amended: `validate_range` raises exactly on the IEEE
chained-comparison failure: NaN is always rejected (a ValueError, with
no explicit finiteness check needed), every finite value on or within
the bounds is accepted, every value out of bounds under IEEE `<=` is
rejected, and a non-finite value is accepted whenever it equals an
infinite bound of the same sign (e.g. inf with max_val = inf). -/
theorem C5_range_check_ieee (mn mx : EFloat) (name : String) :
    (∃ m, validate_range (.float .nan) mn mx name =
      .error (.valueError m)) ∧
    (∀ q : ℚ, EFloat.le mn (.fin q) = true → EFloat.le (.fin q) mx = true →
      validate_range (.float (.fin q)) mn mx name = .ok ()) ∧
    (∀ v : EFloat, EFloat.le mn v = false ∨ EFloat.le v mx = false →
      ∃ m, validate_range (.float v) mn mx name =
        .error (.valueError m)) ∧
    (mx = .inf → mn ≠ .nan →
      validate_range (.float .inf) mn mx name = .ok ()) := by
  refine ⟨?_, ?_, ?_, ?_⟩
  · exact ⟨rangeMsg name mn mx (.float .nan),
      by simp [validate_range, PyVal.toNum, EFloat.le_nan_right]⟩
  · intro q h1 h2
    simp [validate_range, PyVal.toNum, h1, h2]
  · intro v hv
    rcases hv with h | h
    · exact ⟨rangeMsg name mn mx (.float v),
        by simp [validate_range, PyVal.toNum, h]⟩
    · exact ⟨rangeMsg name mn mx (.float v),
        by simp [validate_range, PyVal.toNum, h]⟩
  · intro hmx hmn
    subst hmx
    simp [validate_range, PyVal.toNum, EFloat.le_inf_right mn hmn,
      EFloat.le_inf_right .inf (by simp)]

/-- Witness for the amended C5: 0.5 within [0, 1] is accepted. -/
theorem C5_witness :
    validate_range (.float (.fin (1/2))) (.fin 0) (.fin 1) "x" = .ok () :=
  (C5_range_check_ieee (.fin 0) (.fin 1) "x").2.1 (1/2) (by decide)
    (by decide)

/-- Counterexample to claim C6: with TWO violating records (both empty,
both missing "x"), `validate_type_schema` reports only record 0 — the
single error never mentions record 1, so a batch caller cannot learn of
all per-record problems. -/
theorem C6_counterexample :
    validate_type_schema [[], []] [("x", [PyType.float])] =
      .error (.valueError (missingMsg 0 "x")) ∧
    ¬ msgHas (missingMsg 0 "x") "Record 1" := by
  decide

/-- Claim C6 as amended: `validate_type_schema` checks records in index
order and raises AT THE FIRST violation only; the single error it
raises is exactly the verdict of the first violating record, naming
that record's index (and the field, actual type and expected type set
for a mismatch), with every earlier record having passed; later records
are not reported. -/
theorem C6_first_violation_reported (inputs : List PyRecord)
    (schema : List (String × List PyType)) (e : PyErr)
    (h : validate_type_schema inputs schema = .error e) :
    ∃ i r, inputs.get? i = some r ∧ checkRecord i r schema = .error e ∧
      ((∃ key, e = .valueError (missingMsg i key)) ∨
       (∃ key v tys, r.lookup key = some v ∧
         e = .typeError (typeMismatchMsg i key v tys))) ∧
      ∀ j r2, j < i → inputs.get? j = some r2 →
        checkRecord j r2 schema = .ok () := by
  obtain ⟨i, r, hget, hcheck, hprev⟩ :=
    validateTypeSchemaFrom_error_first inputs 0 schema e h
  refine ⟨i, r, hget, by simpa using hcheck, ?_, ?_⟩
  · exact checkRecord_error_shape i r schema e (by simpa using hcheck)
  · intro j r2 hj hg
    simpa using hprev j r2 hj hg

/-- Witness for the amended C6 at the two-empty-records batch. -/
theorem C6_witness :
    ∃ i r, ([[], []] : List PyRecord).get? i = some r ∧
      checkRecord i r [("x", [PyType.float])] =
        .error (.valueError (missingMsg 0 "x")) ∧
      ((∃ key, (PyErr.valueError (missingMsg 0 "x")) =
          .valueError (missingMsg i key)) ∨
       (∃ key v tys, r.lookup key = some v ∧
         (PyErr.valueError (missingMsg 0 "x")) =
           .typeError (typeMismatchMsg i key v tys))) ∧
      ∀ j r2, j < i → ([[], []] : List PyRecord).get? j = some r2 →
        checkRecord j r2 [("x", [PyType.float])] = .ok () :=
  C6_first_violation_reported [[], []] [("x", [PyType.float])]
    (.valueError (missingMsg 0 "x")) (by decide)

/-- Counterexample to claim C7: `dCat` is a non-empty batch of valid
trait records (three categorical and three continuous trait columns),
yet `prepare_trait_matrix` produces NO matrix at all — it raises a
ValueError from `np.hstack` because `OneHotEncoder()` yields a scipy
sparse block — so no column-count invariant about its output can
hold. -/
theorem C7_counterexample :
    dCat ≠ [] ∧
    prepare_trait_matrix dCat 6 = .error (.valueError hstackMsg) := by
  decide

/-- Claim C7 as amended: `prepare_trait_matrix` yields a matrix only
for batches with no categorical trait column (a categorical column
makes `np.hstack` raise on the sparse encoder output).  Whenever it
does yield a matrix, the row count equals the input record count and
the column count equals the sum of distinct observed category values
over the categorical trait columns (necessarily 0) plus the number of
continuous trait columns; in particular 3 records with 6 all-continuous
traits give exactly 6 columns. -/
theorem C7_matrix_shape (d : List PyRecord) (tc : ℕ)
    (m : List (List Entry)) (hne : d ≠ [])
    (h : prepare_trait_matrix d tc = .ok m) :
    m.length = d.length ∧
      catLevelTotal d tc = 0 ∧
      matCols m = catLevelTotal d tc + contColTotal d tc ∧
      ∀ row ∈ m, row.length = catLevelTotal d tc + contColTotal d tc := by
  have hz := catLevelTotal_eq_zero d tc (prepare_ok_no_cat d tc m h)
  have hm := prepare_ok_eq d tc m h
  subst hm
  refine ⟨List.length_map _ _, hz, ?_, ?_⟩
  · cases d with
    | nil => exact absurd rfl hne
    | cons r rest => simp [matCols, buildRow_length]
  · intro row hrow
    obtain ⟨r, hr, rfl⟩ := List.mem_map.mp hrow
    exact buildRow_length d tc r

/-- Witness for the amended C7: 3 records with 6 all-continuous traits
give a 3-row matrix with exactly 6 columns — the categorical block is
empty and the continuous block has all 6 columns. -/
theorem C7_witness :
    (M3.length = d3.length ∧
      catLevelTotal d3 6 = 0 ∧
      matCols M3 = catLevelTotal d3 6 + contColTotal d3 6 ∧
      ∀ row ∈ M3, row.length = catLevelTotal d3 6 + contColTotal d3 6) ∧
    contColTotal d3 6 = 6 :=
  ⟨C7_matrix_shape d3 6 M3 (by decide) (by decide), by decide⟩

/-- Counterexample to claim C8: the missing-field failure and the
out-of-range failure raise the SAME exception class — both are
ValueError, differing only in message text — so there are not three
error outcomes a Python `except` clause can tell apart. -/
theorem C8_counterexample :
    validate_type_schema [[]] [("area", [PyType.float])] =
      .error (.valueError (missingMsg 0 "area")) ∧
    validate_range (.float (.fin 2)) (.fin 0) (.fin 1) "area" =
      .error (.valueError
        (rangeMsg "area" (.fin 0) (.fin 1) (.float (.fin 2)))) ∧
    (PyErr.valueError (missingMsg 0 "area")).className =
      (PyErr.valueError
        (rangeMsg "area" (.fin 0) (.fin 1) (.float (.fin 2)))).className := by
  decide

/-- Claim C8 as amended: a wrong-typed field raises TypeError, which is
distinguishable by class, while a missing field and an out-of-range
value BOTH raise ValueError and are tellable apart only by message
text: missing-field messages contain " is missing input: " and range
messages contain " must be between ". -/
theorem C8_error_classes (inputs : List PyRecord)
    (schema : List (String × List PyType)) (v : PyVal) (mn mx : EFloat)
    (name : String) (e1 e2 : PyErr)
    (h1 : validate_type_schema inputs schema = .error e1)
    (h2 : validate_range v mn mx name = .error e2) :
    ((∃ m, e1 = .valueError m ∧ msgHas m " is missing input: ") ∨
     (∃ m, e1 = .typeError m ∧ msgHas m " has type ")) ∧
    ((∃ m, e2 = .typeError m) ∨
     (∃ m, e2 = .valueError m ∧ msgHas m " must be between ")) := by
  constructor
  · obtain ⟨i, r, _, hcheck, _⟩ :=
      validateTypeSchemaFrom_error_first inputs 0 schema e1 h1
    rcases checkRecord_error_shape _ r schema e1 hcheck with
      ⟨key, rfl⟩ | ⟨key, v2, tys, _, rfl⟩
    · exact Or.inl ⟨_, rfl, missingMsg_has _ _⟩
    · exact Or.inr ⟨_, rfl, typeMismatchMsg_has _ _ _ _⟩
  · rcases validate_range_error_shape v mn mx name e2 h2 with
      ⟨m, rfl⟩ | rfl
    · exact Or.inl ⟨m, rfl⟩
    · exact Or.inr ⟨_, rfl, rangeMsg_has _ _ _ _⟩

/-- Witness for the amended C8 at concrete failures of each kind. -/
theorem C8_witness :
    ((∃ m, (PyErr.valueError (missingMsg 0 "area")) = .valueError m ∧
        msgHas m " is missing input: ") ∨
     (∃ m, (PyErr.valueError (missingMsg 0 "area")) = .typeError m ∧
        msgHas m " has type ")) ∧
    ((∃ m, (PyErr.valueError
        (rangeMsg "area" (.fin 0) (.fin 1) (.float (.fin 2)))) =
          .typeError m) ∨
     (∃ m, (PyErr.valueError
        (rangeMsg "area" (.fin 0) (.fin 1) (.float (.fin 2)))) =
          .valueError m ∧ msgHas m " must be between ")) :=
  C8_error_classes [[]] [("area", [PyType.float])] (.float (.fin 2))
    (.fin 0) (.fin 1) "area" (.valueError (missingMsg 0 "area"))
    (.valueError (rangeMsg "area" (.fin 0) (.fin 1) (.float (.fin 2))))
    (by decide) (by decide)

/-- Claim C9: on the three records with presence 1, 0, 1 and
total_regions 10 each, `calculate_endemism_index` returns exactly
(0.2, 0): the sum of 1/total_regions over present species, with zero
skipped records (and no warnings). -/
theorem C9_endemism_example :
    calculate_endemism_index
        [endemismPresent, endemismAbsent, endemismPresent] =
      ([], .ok ((.fin (1/5)), 0)) := by
  decide

/-- Counterexample to claim C10: in `calculate_biodiversity_units` a
second record with a wrong-typed field (`area` a str) changes the
outcome from a value to a TypeError, because the type schema is
validated over ALL records before the loop — so records after the
first DO influence the result. -/
theorem C10_counterexample :
    calculate_biodiversity_units [goodUnit, badUnit] ≠
      calculate_biodiversity_units [goodUnit] ∧
    calculate_biodiversity_units [goodUnit, badUnit] =
      .error (.typeError
        (typeMismatchMsg 1 "area" (.str "big") [.float, .float])) := by
  decide

/-- Claim C10 as amended: both functions return from inside the first
iteration of their per-record loop and never range-validate later
records.  `calculate_species_richness` ignores later records entirely
(its outcome is exactly that of the first record alone), while
`calculate_biodiversity_units` still type-schema-validates every
record up front — so a later record can force a missing-field or type
error — but whenever the call returns a value, that value is the one
computed from the first record alone. -/
theorem C10_first_record_short_circuit :
    (∀ (r : PyRecord) (rest : List PyRecord) (strict : Bool),
      calculate_species_richness (r :: rest) strict =
        calculate_species_richness [r] strict) ∧
    (∀ (r : PyRecord) (rest : List PyRecord) (v : Option EFloat),
      calculate_biodiversity_units (r :: rest) = .ok v →
      calculate_biodiversity_units [r] = .ok v) := by
  constructor
  · intro r rest strict
    rfl
  · intro r rest v h
    unfold calculate_biodiversity_units at h ⊢
    cases hv : validate_type_schema (r :: rest) unitTypeSchema with
    | error e =>
      rw [hv] at h
      exact absurd h (by simp)
    | ok u =>
      cases u
      obtain ⟨hc, _⟩ :=
        validateTypeSchemaFrom_cons_ok 0 r rest unitTypeSchema hv
      have hv1 : validate_type_schema [r] unitTypeSchema = .ok () := by
        unfold validate_type_schema validateTypeSchemaFrom
        rw [hc]
        rfl
      rw [hv] at h
      rw [hv1]
      dsimp only at h ⊢
      exact h

/-- Witness for the amended C10: a two-good-record batch returns
exactly the first record's product, 10 * 0.8 * 0.9 * 1.0 * 0.7 =
5.04. -/
theorem C10_witness :
    calculate_biodiversity_units [goodUnit] =
      .ok (some (.fin (126/25))) :=
  C10_first_record_short_circuit.2 goodUnit [goodUnit]
    (some (.fin (126/25))) (by decide)
